import Mathlib

/-!
Verification development for the language-server session proxy
(`src/client/activation/node/languageServerProxy.ts`) and the export
dependency checker (`src/client/datascience/export/exportManagerDependencyChecker.ts`).

The proxy is asynchronous TypeScript running on a single-threaded cooperative
scheduler: an `async` method runs atomically between `await` points.  We embed
it as a small-step system: each pending `start()` call is a task whose program
counter names the `await` it is suspended on, and a schedule (list of labels)
chooses which task resumes next, when `dispose()` is called, and when the
server environment finishes initialization.  `dispose()` is synchronous in the
source, so it is a single atomic step.

External collaborators (factory, folder service, experiments, settings,
test manager) are modelled at their interface boundary: the factory always
yields a fresh client, experiment/setting flags are an `Env` record, and all
observable effects (factory invocations, transport stops, cancellation-strategy
releases, drained subscriptions, progress/config/telemetry wiring) are recorded
in instrumentation fields of the state.
-/

namespace LSProxy

/-- State of one `Deferred` readiness gate.  Modelled from the spec: the
`Deferred` produced by `createDeferred` (common/utils/async, not under src)
is, per the spec, a one-shot settlement primitive with states
pending/resolved/rejected and a queryable completed predicate; settling an
already-settled gate is a no-op. -/
inductive GateState
  | pending
  | resolved
  | rejected
deriving DecidableEq

/-- The underlying language client handle.  `initResult` models the
`initializeResult` marker, absent (false) until the server finishes
initialization. -/
structure Client where
  id : Nat
  initResult : Bool
deriving DecidableEq

/-- Tags identifying the entries pushed onto `this.disposables`:
the transport-start disposable, the progress-reporting registration and the
interpreter-path-change subscription. -/
inductive DTag
  | transportStart (clientId : Nat)
  | progressReporting (n : Nat)
  | interpreterPathSub (n : Nat)
deriving DecidableEq

/-- Static collaborator answers: the `DeprecatePythonPath` experiment flag and
the `downloadLanguageServer` setting. -/
structure Env where
  inExperiment : Bool
  downloadLanguageServer : Bool
deriving DecidableEq

/-- The fields of `NodeLanguageServerProxy` with instrumentation recording the
externally observable effects.  `gate` is the current `startupCompleted`
deferred; `oldGates` archives gates replaced by `dispose()` (generation `g`
is `oldGates[g]`, the current gate has generation `oldGates.length`). -/
structure ProxyState where
  languageClient : Option Client
  cancellationStrategy : Option Nat
  disposables : List DTag
  disposed : Bool
  gate : GateState
  oldGates : List GateState
  lsVersion : Option Nat
  factoryCalls : Nat
  nextClientId : Nat
  nextStrategyId : Nat
  stopCalls : List Nat
  strategyDisposals : List Nat
  drained : List DTag
  progressCount : Nat
  configSubCount : Nat
  telemetryAttachCount : Nat
deriving DecidableEq

/-- The freshly constructed proxy: no client, no strategy, empty subscription
list, not disposed, a pending gate created in the constructor. -/
def initProxy : ProxyState where
  languageClient := none
  cancellationStrategy := none
  disposables := []
  disposed := false
  gate := GateState.pending
  oldGates := []
  lsVersion := none
  factoryCalls := 0
  nextClientId := 0
  nextStrategyId := 0
  stopCalls := []
  strategyDisposals := []
  drained := []
  progressCount := 0
  configSubCount := 0
  telemetryAttachCount := 0

/-- One-shot resolve of the current gate (`this.startupCompleted.resolve()`). -/
def resolveGate (p : ProxyState) : ProxyState :=
  if p.gate = GateState.pending then { p with gate := GateState.resolved } else p

/-- Generation number of the current gate. -/
def currentGen (p : ProxyState) : Nat := p.oldGates.length

/-- The state of the gate of generation `gen`, as observed by a waiter that
awaited `this.startupCompleted.promise` when that gate was current. -/
def gateAt (p : ProxyState) (gen : Nat) : Option GateState :=
  if gen < p.oldGates.length then p.oldGates.get? gen
  else if gen = p.oldGates.length then some p.gate
  else none

/-- The `serverReady` loop guard:
`this.languageClient && !this.languageClient!.initializeResult`. -/
def serverReadyLoopCheck (p : ProxyState) : Bool :=
  match p.languageClient with
  | some c => !c.initResult
  | none => false

/-- The synchronous `dispose()` body: stop and clear the client (fire and
forget), release and clear the cancellation strategy, drain the disposables
list front to back, and, only when `startupCompleted.completed` holds, reject
it (a one-shot no-op on a settled deferred, so the archived gate keeps its
state) and install a fresh pending deferred; finally set the disposed flag. -/
def disposeProxy (p : ProxyState) : ProxyState :=
  let p1 := match p.languageClient with
    | some c => { p with stopCalls := p.stopCalls ++ [c.id], languageClient := none }
    | none => p
  let p2 := match p1.cancellationStrategy with
    | some sid =>
      { p1 with strategyDisposals := p1.strategyDisposals ++ [sid], cancellationStrategy := none }
    | none => p1
  let p3 := { p2 with drained := p2.drained ++ p2.disposables, disposables := ([] : List DTag) }
  let p4 :=
    if p3.gate = GateState.pending then p3
    else { p3 with oldGates := p3.oldGates ++ [p3.gate], gate := GateState.pending }
  { p4 with disposed := true }

/-- Program counter of one `start()` invocation: the `await` it is suspended
on.  `entry` is a call that has not yet run its synchronous head;
`afterDirectory` is suspended on `getCurrentLanguageServerDirectory()`;
`afterFactory` on `factory.createLanguageClient(...)`; `polling` on the
`sleep(100)` inside `serverReady`; `afterReady` on the promise returned by
`serverReady()`; `afterTests` on `registerTestServices()`; `awaitingGate gen`
on `startupCompleted.promise` of generation `gen`. -/
inductive PC
  | entry
  | afterDirectory
  | afterFactory
  | polling
  | afterReady
  | afterTests
  | awaitingGate (gen : Nat)
  | doneOk
  | doneErr
deriving DecidableEq

/-- Whole-system state: the proxy object plus the program counter of every
task (task ids are natural numbers; unscheduled ids just stay at `entry`). -/
structure SystemState where
  proxy : ProxyState
  tasks : Nat → PC

/-- Scheduler labels: resume task `tid`, invoke `dispose()`, or let the server
finish initialization (making `initializeResult` present on the client). -/
inductive Label
  | runTask (tid : Nat)
  | disposeCall
  | serverInit
deriving DecidableEq

/-- Pointwise update of a task table. -/
def updPC (f : Nat → PC) (t : Nat) (v : PC) : Nat → PC :=
  fun i => if i = t then v else f i

/-- The subsidiary wiring run by `start()` after the readiness await when the
proxy was not disposed in the interim: construct and register progress
reporting, subscribe the interpreter-path config-resync handler when the
`DeprecatePythonPath` experiment is active, and attach the telemetry relay
when the `downloadLanguageServer` setting is on. -/
def wireProxy (env : Env) (p : ProxyState) : ProxyState :=
  let p1 := { p with
    disposables := p.disposables ++ [DTag.progressReporting p.progressCount],
    progressCount := p.progressCount + 1 }
  let p2 :=
    if env.inExperiment then
      { p1 with
        disposables := p1.disposables ++ [DTag.interpreterPathSub p1.configSubCount],
        configSubCount := p1.configSubCount + 1 }
    else p1
  if env.downloadLanguageServer then
    { p2 with telemetryAttachCount := p2.telemetryAttachCount + 1 }
  else p2

/-- Resume task `t`: run the segment of `start()` between its current `await`
point and the next one, exactly as the source orders its statements. -/
def stepRun (env : Env) (s : SystemState) (t : Nat) : SystemState :=
  match s.tasks t with
  | PC.entry =>
    match s.proxy.languageClient with
    | some _ =>
      { s with tasks := updPC s.tasks t (PC.awaitingGate (currentGen s.proxy)) }
    | none => { s with tasks := updPC s.tasks t PC.afterDirectory }
  | PC.afterDirectory =>
    let p := s.proxy
    let p := { p with
      lsVersion := some 1,
      cancellationStrategy := some p.nextStrategyId,
      nextStrategyId := p.nextStrategyId + 1,
      factoryCalls := p.factoryCalls + 1 }
    { proxy := p, tasks := updPC s.tasks t PC.afterFactory }
  | PC.afterFactory =>
    let p := s.proxy
    let cid := p.nextClientId
    let p := { p with
      languageClient := some { id := cid, initResult := false },
      nextClientId := cid + 1,
      disposables := p.disposables ++ [DTag.transportStart cid] }
    if serverReadyLoopCheck p then
      { proxy := p, tasks := updPC s.tasks t PC.polling }
    else
      { proxy := resolveGate p, tasks := updPC s.tasks t PC.afterReady }
  | PC.polling =>
    if serverReadyLoopCheck s.proxy then
      { s with tasks := updPC s.tasks t PC.polling }
    else
      { proxy := resolveGate s.proxy, tasks := updPC s.tasks t PC.afterReady }
  | PC.afterReady =>
    if s.proxy.disposed then
      { s with tasks := updPC s.tasks t PC.doneOk }
    else
      { proxy := wireProxy env s.proxy, tasks := updPC s.tasks t PC.afterTests }
  | PC.afterTests => { s with tasks := updPC s.tasks t PC.doneOk }
  | PC.awaitingGate gen =>
    match gateAt s.proxy gen with
    | some GateState.resolved => { s with tasks := updPC s.tasks t PC.doneOk }
    | some GateState.rejected => { s with tasks := updPC s.tasks t PC.doneErr }
    | _ => s
  | PC.doneOk => s
  | PC.doneErr => s

/-- One scheduler step. -/
def step (env : Env) (s : SystemState) : Label → SystemState
  | Label.runTask t => stepRun env s t
  | Label.disposeCall => { s with proxy := disposeProxy s.proxy }
  | Label.serverInit =>
    { s with proxy := { s.proxy with
        languageClient := s.proxy.languageClient.map fun c => { c with initResult := true } } }

/-- Run a whole schedule. -/
def run (env : Env) (s : SystemState) (sch : List Label) : SystemState :=
  sch.foldl (step env) s

/-- A fresh proxy with every task still at its call site. -/
def initSystem : SystemState where
  proxy := initProxy
  tasks := fun _ => PC.entry

/-! ### The disposables drain loop in isolation

`dispose()` drains `this.disposables` with
`while (length > 0) do d := shift(); d.dispose()` and no exception handler.
`drainRun throws l` returns the entries whose release was attempted, in
order, together with the entry whose release threw (if any): a throwing
entry ends the loop because its exception propagates. -/

def drainRun (throws : α → Bool) : List α → List α × Option α
  | [] => ([], none)
  | d :: rest =>
    if throws d then ([d], some d)
    else
      let r := drainRun throws rest
      (d :: r.1, r.2)

/-! ### The serverReady polling loop in isolation

`while (this.languageClient && !this.languageClient!.initializeResult)
   await sleep(100);
 this.startupCompleted.resolve();`
`present k` and `marker k` give the client-present and initializeResult
observations of the k-th loop check; the result is the trace of events, or
`none` when the given fuel is insufficient (the loop has no intrinsic bound). -/

inductive ReadyEvent
  | pollSleep (ms : Nat)
  | gateResolve
deriving DecidableEq

def serverReadySteps (present marker : Nat → Bool) : Nat → Option (List ReadyEvent)
  | 0 => none
  | fuel + 1 =>
    if present 0 && !marker 0 then
      (serverReadySteps (fun i => present (i + 1)) (fun i => marker (i + 1)) fuel).map
        (ReadyEvent.pollSleep 100 :: ·)
    else some [ReadyEvent.gateResolve]

/-! ### The telemetry relay handler

The handler registered with `this.languageClient.onTelemetry`: the event name
defaults when `EventName` is absent or empty (JS falsy), and the forwarded
properties spread the incoming ones with `method` replaced by
`telemetryEvent.Properties.method?.replace(/\x7b slash regex \x7d/g, ...)`,
i.e. every slash becomes a dot, and an absent method stays absent (the
optional-chaining call does not throw). -/

structure TelemetryProps where
  method : Option String
  others : List (String × String)
deriving DecidableEq

structure TelemetryEvent where
  eventName : Option String
  props : TelemetryProps
  measurements : List (String × Nat)
deriving DecidableEq

def defaultLsTelemetryName : String := "LANGUAGE_SERVER_TELEMETRY"

def sanitizeMethod (s : String) : String :=
  String.mk (s.data.map fun c => if c = '/' then '.' else c)

structure SentTelemetry where
  name : String
  measurements : List (String × Nat)
  props : TelemetryProps
deriving DecidableEq

def relayTelemetry (e : TelemetryEvent) : SentTelemetry where
  name :=
    match e.eventName with
    | some s => if s = "" then defaultLsTelemetryName else s
    | none => defaultLsTelemetryName
  measurements := e.measurements
  props := { method := e.props.method.map sanitizeMethod, others := e.props.others }

/-! ### registerTestServices and its swallow wrapper -/

/-- Body of `registerTestServices`: throw when the client handle is absent,
otherwise the outcome is that of `testManager.activate(...)`. -/
def registerTestServicesBody (client : Option Nat) (activateResult : Except String Unit) :
    Except String Unit :=
  match client with
  | none => Except.error "languageClient not initialized"
  | some _ => activateResult

/-- Modelled from the spec: the `swallowExceptions` decorator
(common/utils/decorators, not under src) wrapping `registerTestServices`.
Per the spec it catches all failures from the operation, logs them tagged
with the given context, and never propagates.  The first component is what
the caller of the decorated method observes; the second is the log. -/
def swallowExceptionsWrap (context : String) (r : Except String Unit) :
    Except String Unit × List String :=
  match r with
  | Except.ok _ => (Except.ok (), [])
  | Except.error e => (Except.ok (), [context ++ ": " ++ e])

/-- What `await this.registerTestServices()` observes inside `start()`:
the decorated method. -/
def registerTestServicesCall (client : Option Nat) (activateResult : Except String Unit) :
    Except String Unit × List String :=
  swallowExceptionsWrap "Activating Unit Tests Manager for Language Server"
    (registerTestServicesBody client activateResult)

/-- Invariant holding once the first `start()` call has recorded the client
handle while every other concurrent call is still at its call site: for
schedules containing no dispose it is preserved, so the factory is never
invoked again and a completed call implies a resolved readiness gate. -/
structure Inv (s : SystemState) : Prop where
  clientSome : s.proxy.languageClient.isSome = true
  notDisposed : s.proxy.disposed = false
  noOld : s.proxy.oldGates = []
  notRejected : s.proxy.gate ≠ GateState.rejected
  factoryOne : s.proxy.factoryCalls = 1
  pcOk : ∀ i, s.tasks i ≠ PC.afterDirectory ∧ s.tasks i ≠ PC.afterFactory ∧
    ((s.tasks i = PC.afterReady ∨ s.tasks i = PC.afterTests ∨ s.tasks i = PC.doneOk) →
      s.proxy.gate = GateState.resolved)

end LSProxy

namespace NbExport

/-! ### ExportManagerDependencyChecker.export

`isImportSupported i` is the answer of the i-th call to
`jupyterExecution.isImportSupported()` (the method is called a first time for
the pre-install check and a second time after the optional install);
`managerExport` is the wrapped `manager.export`.  The error string stands for
the localized `DataScience.jupyterNbConvertNotSupported` message
(common/utils/localize, not under src). -/

structure ExportCollabs where
  isImportSupported : Nat → Bool
  managerExport : Nat → Nat → Option Nat
deriving Inhabited

structure ExportOutcome where
  result : Except String (Option Nat)
  installCalled : Bool
  managerCalled : Bool

def jupyterNbConvertNotSupported : String := "jupyter nbconvert not supported"

def exportWithDependencyCheck (c : ExportCollabs) (format model : Nat) : ExportOutcome :=
  let firstCheck := c.isImportSupported 0
  let installCalled := !firstCheck
  let secondCheck := c.isImportSupported 1
  if secondCheck then
    { result := Except.ok (c.managerExport format model),
      installCalled := installCalled,
      managerCalled := true }
  else
    { result := Except.error jupyterNbConvertNotSupported,
      installCalled := installCalled,
      managerCalled := false }

end NbExport

namespace LSProxy

/-! ## Helper lemmas -/

theorem disposeProxy_eq (p : ProxyState) : disposeProxy p = { p with
    languageClient := none,
    cancellationStrategy := none,
    disposables := [],
    disposed := true,
    gate := GateState.pending,
    oldGates := if p.gate = GateState.pending then p.oldGates else p.oldGates ++ [p.gate],
    stopCalls := p.stopCalls ++ (match p.languageClient with | some c => [c.id] | none => []),
    strategyDisposals :=
      p.strategyDisposals ++ (match p.cancellationStrategy with | some sid => [sid] | none => []),
    drained := p.drained ++ p.disposables } := by
  unfold disposeProxy
  cases hc : p.languageClient <;> cases hs : p.cancellationStrategy <;>
    cases hg : p.gate <;> simp [hc, hs, hg]

theorem resolveGate_eq (p : ProxyState) : resolveGate p =
    { p with gate := if p.gate = GateState.pending then GateState.resolved else p.gate } := by
  unfold resolveGate
  cases hg : p.gate <;> simp [hg] <;> (rw [← hg])

theorem wireProxy_fields (env : Env) (p : ProxyState) :
    (wireProxy env p).languageClient = p.languageClient ∧
      (wireProxy env p).disposed = p.disposed ∧
      (wireProxy env p).oldGates = p.oldGates ∧
      (wireProxy env p).gate = p.gate ∧
      (wireProxy env p).factoryCalls = p.factoryCalls := by
  cases h1 : env.inExperiment <;> cases h2 : env.downloadLanguageServer <;>
    simp [wireProxy, h1, h2]

/-! ## C1: concurrent start() calls and the client factory -/

/-- C1 counterexample: on a freshly constructed proxy, two concurrent start()
calls whose synchronous heads both run before either factory promise resolves
each pass the no-client check, so `createLanguageClient` is invoked twice,
refuting that the factory is invoked exactly once for N concurrent calls. -/
theorem start_concurrent_factory_invoked_twice :
    (run (Env.mk true true) initSystem
      [Label.runTask 0, Label.runTask 1, Label.runTask 0, Label.runTask 1]).proxy.factoryCalls
      = 2 := by decide

theorem inv_step (env : Env) (s : SystemState) (l : Label) (hInv : Inv s)
    (hl : l ≠ Label.disposeCall) : Inv (step env s l) := by
  obtain ⟨hc, hd, ho, hr, hf, hpc⟩ := hInv
  cases l with
  | disposeCall => exact absurd rfl hl
  | serverInit =>
    refine ⟨?_, hd, ho, hr, hf, ?_⟩
    · simp [step]
      exact hc
    · intro i
      exact hpc i
  | runTask t =>
    obtain ⟨c, hcc⟩ := Option.isSome_iff_exists.mp hc
    simp only [step]
    cases hpct : s.tasks t with
    | entry =>
      have hs : stepRun env s t =
          { s with tasks := updPC s.tasks t (PC.awaitingGate (currentGen s.proxy)) } := by
        simp [stepRun, hpct, hcc]
      rw [hs]
      refine ⟨hc, hd, ho, hr, hf, ?_⟩
      intro i
      by_cases hit : i = t <;> simp [updPC, hit]
      exact hpc i
    | afterDirectory => exact absurd hpct (hpc t).1
    | afterFactory => exact absurd hpct (hpc t).2.1
    | polling =>
      by_cases hchk : serverReadyLoopCheck s.proxy = true
      · have hs : stepRun env s t = { s with tasks := updPC s.tasks t PC.polling } := by
          simp [stepRun, hpct, hchk]
        rw [hs]
        refine ⟨hc, hd, ho, hr, hf, ?_⟩
        intro i
        by_cases hit : i = t <;> simp [updPC, hit]
        exact hpc i
      · have hs : stepRun env s t =
            { proxy := resolveGate s.proxy, tasks := updPC s.tasks t PC.afterReady } := by
          simp [stepRun, hpct, hchk]
        have hpr : s.proxy.gate = GateState.pending ∨ s.proxy.gate = GateState.resolved := by
          cases hgg : s.proxy.gate
          · exact Or.inl rfl
          · exact Or.inr rfl
          · exact absurd hgg hr
        have hrg : resolveGate s.proxy = { s.proxy with gate := GateState.resolved } := by
          rcases hpr with hgg | hgg <;> rw [resolveGate_eq, hgg] <;> simp
        rw [hs, hrg]
        refine ⟨hc, hd, ho, ?_, hf, ?_⟩
        · simp
        · intro i
          by_cases hit : i = t <;> simp [updPC, hit]
          exact ⟨(hpc i).1, (hpc i).2.1⟩
    | afterReady =>
      have hgate : s.proxy.gate = GateState.resolved := (hpc t).2.2 (Or.inl hpct)
      have hs : stepRun env s t =
          { proxy := wireProxy env s.proxy, tasks := updPC s.tasks t PC.afterTests } := by
        simp [stepRun, hpct, hd]
      obtain ⟨w1, w2, w3, w4, w5⟩ := wireProxy_fields env s.proxy
      rw [hs]
      refine ⟨?_, ?_, ?_, ?_, ?_, ?_⟩
      · show (wireProxy env s.proxy).languageClient.isSome = true
        rw [w1]
        exact hc
      · show (wireProxy env s.proxy).disposed = false
        rw [w2]
        exact hd
      · show (wireProxy env s.proxy).oldGates = []
        rw [w3]
        exact ho
      · show (wireProxy env s.proxy).gate ≠ GateState.rejected
        rw [w4]
        exact hr
      · show (wireProxy env s.proxy).factoryCalls = 1
        rw [w5]
        exact hf
      · intro i
        by_cases hit : i = t
        · subst hit
          refine ⟨?_, ?_, fun _ => ?_⟩
          · simp [updPC]
          · simp [updPC]
          · show (wireProxy env s.proxy).gate = GateState.resolved
            rw [w4]
            exact hgate
        · refine ⟨?_, ?_, fun _ => ?_⟩
          · simpa [updPC, hit] using (hpc i).1
          · simpa [updPC, hit] using (hpc i).2.1
          · show (wireProxy env s.proxy).gate = GateState.resolved
            rw [w4]
            exact hgate
    | afterTests =>
      have hgate : s.proxy.gate = GateState.resolved := (hpc t).2.2 (Or.inr (Or.inl hpct))
      have hs : stepRun env s t = { s with tasks := updPC s.tasks t PC.doneOk } := by
        simp [stepRun, hpct]
      rw [hs]
      refine ⟨hc, hd, ho, hr, hf, ?_⟩
      intro i
      by_cases hit : i = t <;> simp [updPC, hit, hgate]
      exact ⟨(hpc i).1, (hpc i).2.1⟩
    | awaitingGate gen =>
      by_cases hgen : gen = 0
      · subst hgen
        rcases hgg : s.proxy.gate with _ | _ | _
        · have hs : stepRun env s t = s := by
            simp [stepRun, hpct, gateAt, ho, hgg]
          rw [hs]
          exact ⟨hc, hd, ho, hr, hf, hpc⟩
        · have hs : stepRun env s t = { s with tasks := updPC s.tasks t PC.doneOk } := by
            simp [stepRun, hpct, gateAt, ho, hgg]
          rw [hs]
          refine ⟨hc, hd, ho, hr, hf, ?_⟩
          intro i
          by_cases hit : i = t <;> simp [updPC, hit, hgg]
          exact ⟨(hpc i).1, (hpc i).2.1⟩
        · exact absurd hgg hr
      · have hs : stepRun env s t = s := by
          simp [stepRun, hpct, gateAt, ho, hgen]
        rw [hs]
        exact ⟨hc, hd, ho, hr, hf, hpc⟩
    | doneOk =>
      have hs : stepRun env s t = s := by
        simp [stepRun, hpct]
      rw [hs]
      exact ⟨hc, hd, ho, hr, hf, hpc⟩
    | doneErr =>
      have hs : stepRun env s t = s := by
        simp [stepRun, hpct]
      rw [hs]
      exact ⟨hc, hd, ho, hr, hf, hpc⟩

theorem inv_run (env : Env) (s : SystemState) (sch : List Label) (hInv : Inv s)
    (hnd : ∀ l ∈ sch, l ≠ Label.disposeCall) : Inv (run env s sch) := by
  induction sch generalizing s with
  | nil => exact hInv
  | cons l rest ih =>
    exact ih (step env s l) (inv_step env s l hInv (hnd l (by simp)))
      (fun x hx => hnd x (by simp [hx]))

theorem inv_start (env : Env) :
    Inv (run env initSystem [Label.runTask 0, Label.runTask 0, Label.runTask 0]) := by
  have ht : ∀ i,
      (run env initSystem [Label.runTask 0, Label.runTask 0, Label.runTask 0]).tasks i
        = (if i = 0 then PC.polling else PC.entry) := by
    intro i
    by_cases h0 : i = 0 <;>
      simp [run, step, stepRun, initSystem, initProxy, serverReadyLoopCheck, updPC, h0]
  refine ⟨rfl, rfl, rfl, ?_, rfl, ?_⟩
  · show GateState.pending ≠ GateState.rejected
    decide
  · intro i
    have hti := ht i
    by_cases h0 : i = 0 <;> simp [h0] at hti <;> simp [h0, hti]

/-- C1 amended: for N concurrent start() calls on a freshly constructed proxy,
if the calls after the first begin only after the first call has recorded the
client handle, then the client factory is invoked exactly once over any
dispose-free schedule, and every call that completes does so only after the
single readiness gate has resolved.  (Calls that begin before the client
handle is set each invoke the factory themselves, per the counterexample.) -/
theorem start_after_client_set_single_factory (env : Env) (sch : List Label)
    (hnd : ∀ l ∈ sch, l ≠ Label.disposeCall) :
    (run env (run env initSystem [Label.runTask 0, Label.runTask 0, Label.runTask 0])
        sch).proxy.factoryCalls = 1 ∧
      ∀ i, (run env (run env initSystem [Label.runTask 0, Label.runTask 0, Label.runTask 0])
            sch).tasks i = PC.doneOk →
        (run env (run env initSystem [Label.runTask 0, Label.runTask 0, Label.runTask 0])
            sch).proxy.gate = GateState.resolved := by
  have hinv := inv_run env _ sch (inv_start env) hnd
  exact ⟨hinv.factoryOne, fun i hdone => (hinv.pcOk i).2.2 (Or.inr (Or.inr hdone))⟩

/-- C1 witness: a concrete dispose-free schedule interleaving two late
start() calls with the first one. -/
theorem start_after_client_set_single_factory_witness :
    (run (Env.mk true true)
      (run (Env.mk true true) initSystem [Label.runTask 0, Label.runTask 0, Label.runTask 0])
      [Label.runTask 1, Label.serverInit, Label.runTask 0, Label.runTask 0, Label.runTask 0,
        Label.runTask 1, Label.runTask 2]).proxy.factoryCalls = 1 :=
  (start_after_client_set_single_factory (Env.mk true true) _ (by decide)).1

end LSProxy

namespace LSProxy

/-! ## C2: dispose racing an in-flight start -/

/-- C2: if dispose() runs after the transport-start call while start() is
suspended in the readiness poll, then when the poll loop observes the cleared
client handle it exits, the resumed start() sees the disposed flag and returns
without constructing progress reporting, without subscribing the
interpreter-path config-resync handler and without attaching the telemetry
relay, and the languageClient handle is undefined afterward. -/
theorem dispose_during_start_skips_wiring (env : Env) (s : SystemState)
    (h : s.tasks 0 = PC.polling) :
    (step env (step env (step env s Label.disposeCall) (Label.runTask 0))
        (Label.runTask 0)).tasks 0 = PC.doneOk ∧
      (step env (step env (step env s Label.disposeCall) (Label.runTask 0))
        (Label.runTask 0)).proxy.languageClient = none ∧
      (step env (step env (step env s Label.disposeCall) (Label.runTask 0))
        (Label.runTask 0)).proxy.progressCount = s.proxy.progressCount ∧
      (step env (step env (step env s Label.disposeCall) (Label.runTask 0))
        (Label.runTask 0)).proxy.configSubCount = s.proxy.configSubCount ∧
      (step env (step env (step env s Label.disposeCall) (Label.runTask 0))
        (Label.runTask 0)).proxy.telemetryAttachCount = s.proxy.telemetryAttachCount := by
  simp [step, stepRun, h, disposeProxy_eq, serverReadyLoopCheck, resolveGate_eq, updPC]

/-- C2 witness: a start() that has begun the transport and is polling, then a
dispose, then the two resumptions of the start task. -/
theorem dispose_during_start_skips_wiring_witness :
    (step (Env.mk true true)
      (step (Env.mk true true)
        (step (Env.mk true true)
          (run (Env.mk true true) initSystem [Label.runTask 0, Label.runTask 0, Label.runTask 0])
          Label.disposeCall)
        (Label.runTask 0))
      (Label.runTask 0)).tasks 0 = PC.doneOk :=
  (dispose_during_start_skips_wiring (Env.mk true true) _ (by decide)).1

/-! ## C3: registerTestServices with no client -/

/-- C3 counterexample: with no languageClient, the caller of the decorated
registerTestServices observes a successful unit outcome, not the error; the
'languageClient not initialized' error is only logged by the swallow wrapper,
refuting that it is propagated to the caller as a hard failure. -/
theorem registerTestServices_no_client_not_propagated :
    (registerTestServicesCall none (Except.ok ())).1 = Except.ok () ∧
      (registerTestServicesCall none (Except.ok ())).2 =
        ["Activating Unit Tests Manager for Language Server: languageClient not initialized"] :=
  ⟨rfl, rfl⟩

/-- C3 amended: when registerTestServices is invoked while the languageClient
handle is undefined, its body throws the 'languageClient not initialized'
error, but the swallow-exceptions wrapper around the method catches and logs
it, so the caller observes no failure. -/
theorem registerTestServices_no_client_swallowed_logged (activateResult : Except String Unit) :
    registerTestServicesBody none activateResult =
        Except.error "languageClient not initialized" ∧
      registerTestServicesCall none activateResult =
        (Except.ok (),
          ["Activating Unit Tests Manager for Language Server: languageClient not initialized"]) :=
  ⟨rfl, rfl⟩

/-! ## C4: the gate on dispose -/

/-- C4 counterexample: dispose() invoked while the readiness gate is still
pending (one creator polling, one waiter awaiting the gate) leaves the gate
pending and uninstalled: no rejection happens, the waiter stays blocked, and
no fresh gate is installed, refuting that dispose rejects the gate when it
had not yet resolved. -/
theorem dispose_pending_gate_not_rejected :
    (run (Env.mk true true) initSystem
      [Label.runTask 0, Label.runTask 0, Label.runTask 0, Label.runTask 1, Label.disposeCall,
        Label.runTask 1, Label.runTask 1]).tasks 1 = PC.awaitingGate 0 ∧
      (run (Env.mk true true) initSystem
        [Label.runTask 0, Label.runTask 0, Label.runTask 0, Label.runTask 1, Label.disposeCall,
          Label.runTask 1, Label.runTask 1]).proxy.gate = GateState.pending ∧
      (run (Env.mk true true) initSystem
        [Label.runTask 0, Label.runTask 0, Label.runTask 0, Label.runTask 1, Label.disposeCall,
          Label.runTask 1, Label.runTask 1]).proxy.disposed = true ∧
      (run (Env.mk true true) initSystem
        [Label.runTask 0, Label.runTask 0, Label.runTask 0, Label.runTask 1, Label.disposeCall,
          Label.runTask 1, Label.runTask 1]).proxy.oldGates = [] := by decide

/-- C4 amended: dispose() touches the gate only when it had already completed:
a still-pending gate is left pending, unreplaced, and its waiters stay
blocked; a completed gate is archived with its state intact (the reject call
on a settled one-shot deferred does not retract its resolution, so a past
waiter still observes it) and a fresh pending gate is installed for future
start() callers. -/
theorem dispose_gate_replacement (p : ProxyState) :
    (disposeProxy p).gate = GateState.pending ∧
      (disposeProxy p).oldGates =
        (if p.gate = GateState.pending then p.oldGates else p.oldGates ++ [p.gate]) ∧
      gateAt (disposeProxy p) p.oldGates.length =
        some (if p.gate = GateState.pending then GateState.pending else p.gate) := by
  rw [disposeProxy_eq p]
  refine ⟨rfl, rfl, ?_⟩
  by_cases hg : p.gate = GateState.pending <;> simp [gateAt, hg, List.getElem?_concat_length]

/-! ## C5: the disposables drain -/

/-- C5 counterexample: with a throwing first entry and a benign second entry,
the drain attempts only the first entry and its exception propagates; the
second entry is never released, refuting that every entry is attempted even
if an earlier one throws. -/
theorem drain_throw_aborts_cex :
    drainRun (fun n => n == 0) [0, 1] = ([0], some 0) ∧
      1 ∉ (drainRun (fun n => n == 0) [0, 1]).1 := by decide

/-- C5 amended: dispose() drains the subscription list front-to-back,
attempting each entry in order only until the first throwing entry: that
entry's exception aborts the drain and propagates, and the entries after it
are not attempted. -/
theorem drain_attempts_until_first_throw {α : Type} (th : α → Bool) (pre post : List α) (e : α)
    (hpre : ∀ x ∈ pre, th x = false) (he : th e = true) :
    drainRun th (pre ++ e :: post) = (pre ++ [e], some e) := by
  induction pre with
  | nil => simp [drainRun, he]
  | cons a rest ih =>
    have ha : th a = false := hpre a (by simp)
    have := ih (fun x hx => hpre x (by simp [hx]))
    simp [drainRun, ha, this]

/-- C5 witness: three benign entries around a throwing one. -/
theorem drain_attempts_until_first_throw_witness :
    drainRun (fun n => n == 0) ([1, 2] ++ 0 :: [3]) = ([1, 2] ++ [0], some 0) :=
  drain_attempts_until_first_throw (fun n => n == 0) [1, 2] [3] 0 (by decide) (by decide)

/-! ## C6: the telemetry relay -/

/-- C6: the relayed telemetry event rewrites a Properties.method of "a/b/c"
to "a.b.c" (every slash becomes a dot); with no method property the relay is
a total function that forwards the other properties and the measurements
unchanged and leaves method absent. -/
theorem telemetry_relay_sanitizes_method (en : Option String)
    (others : List (String × String)) (ms : List (String × Nat)) :
    (relayTelemetry ⟨en, ⟨some "a/b/c", others⟩, ms⟩).props.method = some "a.b.c" ∧
      (relayTelemetry ⟨en, ⟨none, others⟩, ms⟩).props.method = none ∧
      (relayTelemetry ⟨en, ⟨none, others⟩, ms⟩).props.others = others ∧
      (relayTelemetry ⟨en, ⟨none, others⟩, ms⟩).measurements = ms :=
  ⟨rfl, rfl, rfl, rfl⟩

/-! ## C7: idempotent dispose -/

/-- C7: calling dispose() twice produces exactly the same proxy state as
calling it once (in particular the stop/strategy/drain effect logs are
unchanged, so nothing is double-released), and the second drain runs over an
empty list, so it can raise no exception whichever entries might throw. -/
theorem dispose_idempotent (p : ProxyState) :
    disposeProxy (disposeProxy p) = disposeProxy p ∧
      ∀ th : DTag → Bool, drainRun th (disposeProxy p).disposables = ([], none) := by
  constructor
  · rw [disposeProxy_eq p, disposeProxy_eq]
    simp
  · intro th
    rw [disposeProxy_eq p]
    rfl

/-! ## C8: restart after dispose -/

/-- C8: a start() call beginning after a completed dispose() (client handle
cleared, disposed flag set, current gate pending) runs the creation path
again: the factory is invoked one more time, the call completes, and its
readiness gate resolves. -/
theorem restart_after_dispose (env : Env) (s : SystemState) (t : Nat)
    (h1 : s.tasks t = PC.entry) (h2 : s.proxy.languageClient = none)
    (h3 : s.proxy.disposed = true) (h4 : s.proxy.gate = GateState.pending) :
    (run env s [Label.runTask t, Label.runTask t, Label.runTask t, Label.serverInit,
        Label.runTask t, Label.runTask t]).proxy.factoryCalls = s.proxy.factoryCalls + 1 ∧
      (run env s [Label.runTask t, Label.runTask t, Label.runTask t, Label.serverInit,
        Label.runTask t, Label.runTask t]).tasks t = PC.doneOk ∧
      (run env s [Label.runTask t, Label.runTask t, Label.runTask t, Label.serverInit,
        Label.runTask t, Label.runTask t]).proxy.gate = GateState.resolved := by
  simp [run, step, stepRun, h1, h2, h3, h4, serverReadyLoopCheck, resolveGate_eq, updPC]

/-- C8 witness: a full first session (started, ready, wired, completed) then
a dispose, then a fresh start() as task 1; the factory count goes from 1
to 2. -/
theorem restart_after_dispose_witness :
    (run (Env.mk true true)
      (run (Env.mk true true) initSystem
        [Label.runTask 0, Label.runTask 0, Label.runTask 0, Label.serverInit, Label.runTask 0,
          Label.runTask 0, Label.runTask 0, Label.disposeCall])
      [Label.runTask 1, Label.runTask 1, Label.runTask 1, Label.serverInit, Label.runTask 1,
        Label.runTask 1]).proxy.factoryCalls = 2 :=
  (restart_after_dispose (Env.mk true true)
    (run (Env.mk true true) initSystem
      [Label.runTask 0, Label.runTask 0, Label.runTask 0, Label.serverInit, Label.runTask 0,
        Label.runTask 0, Label.runTask 0, Label.disposeCall])
    1 (by decide) (by decide) (by decide) (by decide)).1

/-! ## C9: serverReady polling -/

theorem serverReadySteps_succ (present marker : Nat → Bool) (fuel : Nat) :
    serverReadySteps present marker (fuel + 1) =
      (if present 0 && !marker 0 then
        (serverReadySteps (fun i => present (i + 1)) (fun i => marker (i + 1)) fuel).map
          (ReadyEvent.pollSleep 100 :: ·)
      else some [ReadyEvent.gateResolve]) := rfl

/-- C9: with the client present throughout and the initializeResult marker
present at the Nth loop check, serverReady terminates within N+1 checks and
its event trace is some number k ≤ N of 100ms sleeps followed by exactly one
resolution of the readiness gate, with no poll after the resolution. -/
theorem serverReady_polls_until_marker (marker : Nat → Bool) (N : Nat) (h : marker N = true) :
    ∃ k, k ≤ N ∧ serverReadySteps (fun _ => true) marker (N + 1) =
      some (List.replicate k (ReadyEvent.pollSleep 100) ++ [ReadyEvent.gateResolve]) := by
  induction N generalizing marker with
  | zero =>
    exact ⟨0, Nat.le_refl 0, by simp [serverReadySteps_succ, h]⟩
  | succ n ih =>
    by_cases h0 : marker 0 = true
    · exact ⟨0, Nat.zero_le _, by simp [serverReadySteps_succ, h0]⟩
    · obtain ⟨k, hk, he⟩ := ih (fun i => marker (i + 1)) h
      refine ⟨k + 1, Nat.succ_le_succ hk, ?_⟩
      rw [serverReadySteps_succ]
      simp only [h0]
      simp [he, List.replicate_succ]

/-- C9 witness: a marker that becomes present at the second check. -/
theorem serverReady_polls_until_marker_witness :
    (serverReadySteps (fun _ => true) (fun n => decide (2 ≤ n)) (2 + 1)).isSome = true := by
  obtain ⟨k, _, he⟩ := serverReady_polls_until_marker (fun n => decide (2 ≤ n)) 2 (by decide)
  rw [he]
  rfl

end LSProxy

namespace NbExport

/-! ## C10: the export dependency checker -/

/-- C10: export(format, model) invokes installMissingDependencies exactly when
the first isImportSupported check is false; then, when the second
isImportSupported check is true it returns the wrapped manager.export result,
and otherwise it throws the localized jupyter-nbconvert-not-supported error
and never invokes manager.export. -/
theorem export_dependency_check_behavior (c : ExportCollabs) (format model : Nat) :
    (exportWithDependencyCheck c format model).installCalled = !(c.isImportSupported 0) ∧
      (exportWithDependencyCheck c format model).managerCalled = c.isImportSupported 1 ∧
      (exportWithDependencyCheck c format model).result =
        (if c.isImportSupported 1 then Except.ok (c.managerExport format model)
         else Except.error jupyterNbConvertNotSupported) := by
  unfold exportWithDependencyCheck
  by_cases h1 : c.isImportSupported 1 = true <;> simp [h1]

end NbExport
